import Mathlib

/-!
Verification of the `dcm-demo` notebook (src/dcm-demo.py) of the pixels
repository.  The notebook is a straight-line orchestration script: it reads
two widget parameters, lists files, catalogs them via the external
`databricks.pixels` package, persists the catalog to a table, reloads it,
extracts DICOM metadata via an external transformer, persists again, runs a
handful of SQL statements against the stored table, filters rows and plots
thumbnails.

The embedding below models the notebook cell by cell as a pure function of
the widget values, an abstract record of external-library behaviours, the
initial spark configuration and the initial table store.  The routines of
the `databricks.pixels` package (`Catalog.catalog`, `Catalog.save`,
`Catalog.load`, `DicomMetaExtractor.transform`, `DicomFrames.plotx`) are code
of this repository that is not under `src/`; they are modelled from the spec
where their semantics matters.  A second, `Except`-valued run models the
propagation of exceptions raised by the external calls.
-/

namespace Pixels

/-- A dataframe row: an association of column names to (textual) cell
values.  The schema is owned by the external library, so columns are kept
abstract as strings. -/
abbrev Row := List (String × String)

/-- A dataframe: a list of rows. -/
abbrev DataFrame := List Row

/-- The metastore: persisted tables, keyed by their (three-part) name. -/
abbrev TableStore := List (String × DataFrame)

/-- Overwrite the contents of table `k` with `v` (all previous entries for
`k` are removed). -/
def storeInsert (s : TableStore) (k : String) (v : DataFrame) : TableStore :=
  (k, v) :: s.filter (fun p => !(p.1 == k))

/-- Look up the contents of table `k`. -/
def storeLookup (s : TableStore) (k : String) : Option DataFrame :=
  List.lookup k s

/-- Contents of table `k`, empty when the table does not exist. -/
def storeGet (s : TableStore) (k : String) : DataFrame :=
  (storeLookup s k).getD []

/-- The spark session configuration, keyed by configuration key. -/
abbrev SparkConf := List (String × String)

/-- Model of `spark.conf.set`. -/
def sparkConfSet (c : SparkConf) (k v : String) : SparkConf :=
  (k, v) :: c.filter (fun p => !(p.1 == k))

/-- Model of reading a spark configuration key, as done by the `$\x7bc.table\x7d`
substitution in the notebook's SQL cells. -/
def sparkConfGet (c : SparkConf) (k : String) : String :=
  (List.lookup k c).getD ""

/-- The behaviours of the external library routines the notebook calls.
Their implementations live outside `src/` (in the `databricks.pixels`
package, Spark and dbutils), so they are parameters of the model. -/
structure ExtLib where
  /-- `dbutils.fs.ls path` : the file listing at the path. -/
  fsLs : String → List String
  /-- `Catalog.catalog(spark, path)` : the catalog dataframe built from the
  files found under the path. -/
  catalog : String → DataFrame
  /-- The per-row serialized JSON text blob of DICOM metadata produced by the
  metadata-extraction transformer. -/
  metaBlob : Row → String
  /-- Spark evaluation of a SQL filter condition on one row. -/
  evalPred : String → Row → Bool
  /-- Spark evaluation of the `n`-th SELECT statement against the contents of
  the addressed table. -/
  sqlSelect : Nat → DataFrame → DataFrame
  /-- `DicomFrames(df, withMeta, inputCol).plotx()` : the rendered plots. -/
  plotx : DataFrame → Bool → String → String

/-- Modelled from the spec: `DicomMetaExtractor.transform` (code of the
`databricks.pixels` package, not under `src/`) produces the catalog dataframe
augmented with a column `meta` holding a serialized-text (JSON string) blob
of per-image metadata; no rows or existing columns are dropped or
rewritten. -/
def dicomMetaTransform (ext : ExtLib) (df : DataFrame) : DataFrame :=
  df.map (fun r => r ++ [("meta", ext.metaBlob r)])

/-- Modelled from the spec: `Catalog.save` (code of the `databricks.pixels`
package, not under `src/`) with `mode="overwrite"` persists the dataframe to
the named table, replacing any previous contents. -/
def catalogSave (s : TableStore) (tbl : String) (df : DataFrame) : TableStore :=
  storeInsert s tbl df

/-- Modelled from the spec: `Catalog.load` (code of the `databricks.pixels`
package, not under `src/`) reloads the persisted table into a dataframe. -/
def catalogLoad (s : TableStore) (tbl : String) : DataFrame :=
  storeGet s tbl

/-- `df.repartition(n)` only redistributes rows among partitions; its
row contents are unchanged (partitioning is opaque at this layer). -/
def repartitionDf (_n : Nat) (df : DataFrame) : DataFrame := df

/-- `df.limit(n)` : at most the first `n` rows. -/
def limitDf (n : Nat) (df : DataFrame) : DataFrame := df.take n

/-- The filter condition string of line 153 of the notebook. -/
def filterCond : String := "meta:img_max < 1000"

/-- One call the notebook issues, with the arguments it passes. -/
inductive Call where
  | widgetText (name dflt : String)
  | widgetGet (name : String)
  | confSetCall (key value : String)
  | printOut (s1 s2 : String)
  | fsLsCall (path : String)
  | displayCall
  | catalogCall (path : String)
  | saveCall (table mode : String)
  | sqlCall (idx : Nat) (table : String)
  | loadCall (table : String)
  | countCall (n : Nat)
  | repartitionCall (n : Nat)
  | transformCall
  | sparkTableCall (table : String)
  | filterCall (cond : String)
  | limitCall (n : Nat)
  | plotxCall (withMeta : Bool) (inputCol : String)
  deriving DecidableEq

/-- One displayed or printed output of a notebook cell. -/
inductive Output where
  | printed (s : String)
  | files (ls : List String)
  | tableOut (df : DataFrame)
  | num (n : Nat)
  | plotsOut (p : String)
  deriving DecidableEq

/-- Everything a run of the notebook produces: the calls it issued in order,
the cell outputs, the final configuration and table store, and the
intermediate dataframes bound by the notebook's own variables. -/
structure RunResult where
  trace : List Call
  outputs : List Output
  finalConf : SparkConf
  finalStore : TableStore
  catalogDf : DataFrame
  reloadedDf : DataFrame
  metaDf : DataFrame
  filteredDf : DataFrame
  filteredCount : Nat
  plotInput : DataFrame
  plots : String
  deriving DecidableEq

/-- The notebook `src/dcm-demo.py`, cell by cell (lines 44-167).  `pathW` and
`tableW` are the values of the two text widgets; `conf0` and `store0` are the
spark configuration and metastore contents when the run starts. -/
def runNotebook (ext : ExtLib) (pathW tableW : String)
    (conf0 : SparkConf) (store0 : TableStore) : RunResult :=
  -- lines 44-48: widget definitions and reads
  let path := pathW
  let table := tableW
  -- line 50: spark.conf.set('c.table', table)
  let conf := sparkConfSet conf0 "c.table" table
  -- line 59: display(dbutils.fs.ls(path))
  let lsRes := ext.fsLs path
  -- line 70: catalog_df = Catalog.catalog(spark, path)
  let catalog_df := ext.catalog path
  -- line 80: Catalog.save(catalog_df, table=table, mode="overwrite")
  let store1 := catalogSave store0 table catalog_df
  -- line 84: %sql select count(*) from $\x7bc.table\x7d
  let sql1Tbl := sparkConfGet conf "c.table"
  let sql1Res := (storeGet store1 sql1Tbl).length
  -- line 93: catalog_df = Catalog.load(spark, table=table)
  let reloaded := catalogLoad store1 table
  -- line 98: catalog_df.count()
  let cnt1 := reloaded.length
  -- lines 113-114: meta_df = DicomMetaExtractor().transform(catalog_df.repartition(10_000))
  let meta_df := dicomMetaTransform ext (repartitionDf 10000 reloaded)
  -- line 115: Catalog.save(meta_df, table=table, mode="overwrite")
  let store2 := catalogSave store1 table meta_df
  -- line 116: display(spark.table(table))
  let sparkTableRes := storeGet store2 table
  -- line 129: %sql select count(1) from $\x7bc.table\x7d
  let sql2Tbl := sparkConfGet conf "c.table"
  let sql2Res := (storeGet store2 sql2Tbl).length
  -- lines 134-135: %sql SELECT ... FROM $\x7bc.table\x7d
  let sql3Tbl := sparkConfGet conf "c.table"
  let sql3Res := ext.sqlSelect 3 (storeGet store2 sql3Tbl)
  -- lines 140-144: %sql SELECT ... FROM $\x7bc.table\x7d WHERE ... order by ...
  let sql4Tbl := sparkConfGet conf "c.table"
  let sql4Res := ext.sqlSelect 4 (storeGet store2 sql4Tbl)
  -- line 153: dcm_df_filtered = Catalog.load(spark, table=table).filter('meta:img_max < 1000').repartition(1000)
  let dcm_df_filtered :=
    repartitionDf 1000 ((catalogLoad store2 table).filter (ext.evalPred filterCond))
  -- line 154: dcm_df_filtered.count()
  let cnt2 := dcm_df_filtered.length
  -- line 163: plots = DicomFrames(dcm_df_filtered.limit(100), withMeta=True, inputCol="local_path").plotx()
  let plotIn := limitDf 100 dcm_df_filtered
  let plots := ext.plotx plotIn true "local_path"
  { trace :=
      [ Call.widgetText "path" "s3://hls-eng-data-public/dicom/ddsm/",
        Call.widgetText "table" "<catalog>.<schema>.<table>",
        Call.widgetGet "path",
        Call.widgetGet "table",
        Call.confSetCall "c.table" table,
        Call.printOut path table,
        Call.fsLsCall path,
        Call.displayCall,
        Call.catalogCall path,
        Call.displayCall,
        Call.saveCall table "overwrite",
        Call.sqlCall 1 sql1Tbl,
        Call.loadCall table,
        Call.displayCall,
        Call.countCall cnt1,
        Call.repartitionCall 10000,
        Call.transformCall,
        Call.saveCall table "overwrite",
        Call.sparkTableCall table,
        Call.displayCall,
        Call.sqlCall 2 sql2Tbl,
        Call.sqlCall 3 sql3Tbl,
        Call.sqlCall 4 sql4Tbl,
        Call.loadCall table,
        Call.filterCall filterCond,
        Call.repartitionCall 1000,
        Call.countCall cnt2,
        Call.limitCall 100,
        Call.plotxCall true "local_path" ],
    outputs :=
      [ Output.printed (path ++ " " ++ table),
        Output.files lsRes,
        Output.tableOut catalog_df,
        Output.num sql1Res,
        Output.tableOut reloaded,
        Output.num cnt1,
        Output.tableOut sparkTableRes,
        Output.num sql2Res,
        Output.tableOut sql3Res,
        Output.tableOut sql4Res,
        Output.num cnt2,
        Output.plotsOut plots ],
    finalConf := conf,
    finalStore := store2,
    catalogDf := catalog_df,
    reloadedDf := reloaded,
    metaDf := meta_df,
    filteredDf := dcm_df_filtered,
    filteredCount := cnt2,
    plotInput := plotIn,
    plots := plots }

/-- A concrete external-library behaviour, used for concrete evaluations. -/
def extDemo : ExtLib where
  fsLs := fun _ => ["a.dcm", "b.dcm"]
  catalog := fun _ => [[("path", "a.dcm")], [("path", "b.dcm")]]
  metaBlob := fun _ => "blob"
  evalPred := fun _ r => r.length < 3
  sqlSelect := fun _ df => df
  plotx := fun _ _ _ => "thumbnails"

/-! ### The pipeline of operations, as named by the spec -/

/-- The operation kinds named by the spec's pipeline description. -/
inductive ClaimOp where
  | readConfig | listFiles | catalogOp | persist | reload | extract | query | filterOp | plot
  deriving DecidableEq

/-- Classify a call as one of the spec's pipeline operation kinds. -/
def claimOpOf : Call → Option ClaimOp
  | Call.widgetGet _ => some ClaimOp.readConfig
  | Call.fsLsCall _ => some ClaimOp.listFiles
  | Call.catalogCall _ => some ClaimOp.catalogOp
  | Call.saveCall _ _ => some ClaimOp.persist
  | Call.loadCall _ => some ClaimOp.reload
  | Call.transformCall => some ClaimOp.extract
  | Call.sqlCall _ _ => some ClaimOp.query
  | Call.filterCall _ => some ClaimOp.filterOp
  | Call.plotxCall _ _ => some ClaimOp.plot
  | _ => none

/-- The pipeline operations a run executes, in order. -/
def pipelineOps (r : RunResult) : List ClaimOp := r.trace.filterMap claimOpOf

/-- Drop a leading run of query operations. -/
def dropQueries : List ClaimOp → List ClaimOp
  | ClaimOp.query :: rest => dropQueries rest
  | l => l

/-- Whether a pipeline is exactly the sequence claimed by C1: two
configuration reads, list files, catalog, persist, reload, extract, persist,
one or more declarative queries, filter, plot — in this order and nothing
else. -/
def matchesClaimedSeq : List ClaimOp → Bool
  | ClaimOp.readConfig :: ClaimOp.readConfig :: ClaimOp.listFiles ::
    ClaimOp.catalogOp :: ClaimOp.persist :: ClaimOp.reload :: ClaimOp.extract ::
    ClaimOp.persist :: ClaimOp.query :: rest =>
      dropQueries rest == [ClaimOp.filterOp, ClaimOp.plot]
  | _ => false

/-- The names of the widget (parameter) definitions appearing in a trace. -/
def widgetDefs (tr : List Call) : List String :=
  tr.filterMap fun c => match c with | Call.widgetText n _ => some n | _ => none

/-- The names of the widget (parameter) reads appearing in a trace. -/
def widgetReads (tr : List Call) : List String :=
  tr.filterMap fun c => match c with | Call.widgetGet n => some n | _ => none

/-- Everything two runs with the same widget values and the same external
behaviour must agree on: the issued calls, the cell outputs, all dataframes
the notebook binds, the plots, and the final contents of the destination
table. -/
def observables (r : RunResult) (tbl : String) :
    List Call × List Output × DataFrame × DataFrame × DataFrame × DataFrame ×
      Nat × DataFrame × String × Option DataFrame :=
  (r.trace, r.outputs, r.catalogDf, r.reloadedDf, r.metaDf, r.filteredDf,
   r.filteredCount, r.plotInput, r.plots, storeLookup r.finalStore tbl)

/-- The persisted table addressed by a call, when it addresses one. -/
def tableAddressed : Call → Option String
  | Call.saveCall tbl _ => some tbl
  | Call.loadCall tbl => some tbl
  | Call.sparkTableCall tbl => some tbl
  | Call.sqlCall _ tbl => some tbl
  | _ => none

/-! ### The `Except`-valued model of the run -/

/-- External-library behaviours whose calls may raise an exception of type
`ε`.  The notebook authors no `try`/`except`, so these are the only sources
of failure. -/
structure ExtLibE (ε : Type) where
  /-- `dbutils.fs.ls path`, which may raise (e.g. on a bad path). -/
  fsLs : String → Except ε (List String)
  /-- `Catalog.catalog(spark, path)`, which may raise. -/
  catalog : String → Except ε DataFrame
  /-- Per-row metadata extraction, which may raise (e.g. malformed file). -/
  metaBlob : Row → Except ε String
  /-- The external persistence call, which may raise (e.g. malformed table
  identifier); on success the store is updated as in `catalogSave`. -/
  saveOp : DataFrame → String → Except ε Unit
  /-- Spark evaluation of a filter condition on one row, which may raise. -/
  evalPred : String → Row → Except ε Bool
  /-- Spark evaluation of a SELECT statement, which may raise. -/
  sqlSelect : Nat → DataFrame → Except ε DataFrame
  /-- The external plotting call, which may raise. -/
  plotx : DataFrame → Bool → String → Except ε String

/-- The metadata transformer when the per-row extraction may raise: the
first failing row aborts the whole transformation. -/
def transformE {ε : Type} (m : Row → Except ε String) : DataFrame → Except ε DataFrame
  | [] => Except.ok []
  | r :: rs =>
    match m r with
    | Except.error e => Except.error e
    | Except.ok b => (transformE m rs).map (fun l => (r ++ [("meta", b)]) :: l)

/-- Row filtering when the predicate evaluation may raise: the first failing
row aborts the whole filter. -/
def filterRowsE {ε : Type} (p : Row → Except ε Bool) : DataFrame → Except ε DataFrame
  | [] => Except.ok []
  | r :: rs =>
    match p r with
    | Except.error e => Except.error e
    | Except.ok true => (filterRowsE p rs).map (fun l => r :: l)
    | Except.ok false => filterRowsE p rs

/-- The notebook under externals that may raise.  The structure is the same
straight line as `runNotebook`; the notebook authors no handler, so each
match merely passes a raised exception through. -/
def runNotebookE {ε : Type} (ext : ExtLibE ε) (pathW tableW : String)
    (conf0 : SparkConf) (store0 : TableStore) : Except ε RunResult :=
  let path := pathW
  let table := tableW
  let conf := sparkConfSet conf0 "c.table" table
  match ext.fsLs path with
  | Except.error e => Except.error e
  | Except.ok lsRes =>
  match ext.catalog path with
  | Except.error e => Except.error e
  | Except.ok catalog_df =>
  match ext.saveOp catalog_df table with
  | Except.error e => Except.error e
  | Except.ok _ =>
  let store1 := catalogSave store0 table catalog_df
  let sql1Tbl := sparkConfGet conf "c.table"
  let sql1Res := (storeGet store1 sql1Tbl).length
  let reloaded := catalogLoad store1 table
  let cnt1 := reloaded.length
  match transformE ext.metaBlob (repartitionDf 10000 reloaded) with
  | Except.error e => Except.error e
  | Except.ok meta_df =>
  match ext.saveOp meta_df table with
  | Except.error e => Except.error e
  | Except.ok _ =>
  let store2 := catalogSave store1 table meta_df
  let sparkTableRes := storeGet store2 table
  let sql2Res := (storeGet store2 (sparkConfGet conf "c.table")).length
  match ext.sqlSelect 3 (storeGet store2 (sparkConfGet conf "c.table")) with
  | Except.error e => Except.error e
  | Except.ok sql3Res =>
  match ext.sqlSelect 4 (storeGet store2 (sparkConfGet conf "c.table")) with
  | Except.error e => Except.error e
  | Except.ok sql4Res =>
  match filterRowsE (ext.evalPred filterCond) (catalogLoad store2 table) with
  | Except.error e => Except.error e
  | Except.ok filteredRaw =>
  let dcm_df_filtered := repartitionDf 1000 filteredRaw
  let cnt2 := dcm_df_filtered.length
  let plotIn := limitDf 100 dcm_df_filtered
  match ext.plotx plotIn true "local_path" with
  | Except.error e => Except.error e
  | Except.ok plots =>
  Except.ok
    { trace :=
        [ Call.widgetText "path" "s3://hls-eng-data-public/dicom/ddsm/",
          Call.widgetText "table" "<catalog>.<schema>.<table>",
          Call.widgetGet "path",
          Call.widgetGet "table",
          Call.confSetCall "c.table" table,
          Call.printOut path table,
          Call.fsLsCall path,
          Call.displayCall,
          Call.catalogCall path,
          Call.displayCall,
          Call.saveCall table "overwrite",
          Call.sqlCall 1 sql1Tbl,
          Call.loadCall table,
          Call.displayCall,
          Call.countCall cnt1,
          Call.repartitionCall 10000,
          Call.transformCall,
          Call.saveCall table "overwrite",
          Call.sparkTableCall table,
          Call.displayCall,
          Call.sqlCall 2 (sparkConfGet conf "c.table"),
          Call.sqlCall 3 (sparkConfGet conf "c.table"),
          Call.sqlCall 4 (sparkConfGet conf "c.table"),
          Call.loadCall table,
          Call.filterCall filterCond,
          Call.repartitionCall 1000,
          Call.countCall cnt2,
          Call.limitCall 100,
          Call.plotxCall true "local_path" ],
      outputs :=
        [ Output.printed (path ++ " " ++ table),
          Output.files lsRes,
          Output.tableOut catalog_df,
          Output.num sql1Res,
          Output.tableOut reloaded,
          Output.num cnt1,
          Output.tableOut sparkTableRes,
          Output.num sql2Res,
          Output.tableOut sql3Res,
          Output.tableOut sql4Res,
          Output.num cnt2,
          Output.plotsOut plots ],
      finalConf := conf,
      finalStore := store2,
      catalogDf := catalog_df,
      reloadedDf := reloaded,
      metaDf := meta_df,
      filteredDf := dcm_df_filtered,
      filteredCount := cnt2,
      plotInput := plotIn,
      plots := plots }

/-- An external behaviour none of whose calls ever raises, mirroring a total
behaviour `ext`. -/
def liftE {ε : Type} (ext : ExtLib) : ExtLibE ε where
  fsLs := fun a => Except.ok (ext.fsLs a)
  catalog := fun a => Except.ok (ext.catalog a)
  metaBlob := fun r => Except.ok (ext.metaBlob r)
  saveOp := fun _ _ => Except.ok ()
  evalPred := fun c r => Except.ok (ext.evalPred c r)
  sqlSelect := fun n df => Except.ok (ext.sqlSelect n df)
  plotx := fun df b c => Except.ok (ext.plotx df b c)

/-- The exception `e` is one actually raised by one of the external library
calls: surfacing such an `e` unchanged is propagation without translation. -/
def raisedByExtLib {ε : Type} (ext : ExtLibE ε) (e : ε) : Prop :=
  (∃ a, ext.fsLs a = Except.error e) ∨
  (∃ a, ext.catalog a = Except.error e) ∨
  (∃ df tbl, ext.saveOp df tbl = Except.error e) ∨
  (∃ r, ext.metaBlob r = Except.error e) ∨
  (∃ n df, ext.sqlSelect n df = Except.error e) ∨
  (∃ c r, ext.evalPred c r = Except.error e) ∨
  (∃ df b c, ext.plotx df b c = Except.error e)

/-- A concrete failing external behaviour: the catalog call raises. -/
def extBoom : ExtLibE String where
  fsLs := fun _ => Except.ok []
  catalog := fun _ => Except.error "boom"
  metaBlob := fun _ => Except.ok "m"
  saveOp := fun _ _ => Except.ok ()
  evalPred := fun _ _ => Except.ok true
  sqlSelect := fun _ df => Except.ok df
  plotx := fun _ _ _ => Except.ok "plots"

/-! ### Helper lemmas about the store, the configuration and the
`Except`-valued helpers -/

theorem storeLookup_insert_self (s : TableStore) (k : String) (v : DataFrame) :
    storeLookup (storeInsert s k v) k = some v := by
  simp [storeLookup, storeInsert, List.lookup]

theorem storeGet_insert_self (s : TableStore) (k : String) (v : DataFrame) :
    storeGet (storeInsert s k v) k = v := by
  simp [storeGet, storeLookup_insert_self]

theorem sparkConfGet_set_self (c : SparkConf) (k v : String) :
    sparkConfGet (sparkConfSet c k v) k = v := by
  simp [sparkConfGet, sparkConfSet, List.lookup]

theorem storeInsert_insert_same (s : TableStore) (k : String) (v w : DataFrame) :
    storeInsert (storeInsert s k v) k w = storeInsert s k w := by
  simp [storeInsert, List.filter_filter]

theorem transformE_error {ε : Type} (m : Row → Except ε String) :
    ∀ (df : DataFrame) (e : ε), transformE m df = Except.error e →
      ∃ r, m r = Except.error e := by
  intro df
  induction df with
  | nil => intro e h; simp [transformE] at h
  | cons r rs ih =>
    intro e h
    rw [transformE] at h
    rcases hm : m r with e1 | b
    · rw [hm] at h
      simp at h
      exact ⟨r, by rw [hm, h]⟩
    · rw [hm] at h
      simp only [] at h
      rcases ht : transformE m rs with e2 | l
      · rw [ht] at h
        simp [Except.map] at h
        exact ih e (by rw [ht, h])
      · rw [ht] at h
        simp [Except.map] at h

theorem filterRowsE_error {ε : Type} (p : Row → Except ε Bool) :
    ∀ (df : DataFrame) (e : ε), filterRowsE p df = Except.error e →
      ∃ r, p r = Except.error e := by
  intro df
  induction df with
  | nil => intro e h; simp [filterRowsE] at h
  | cons r rs ih =>
    intro e h
    rw [filterRowsE] at h
    rcases hp : p r with e1 | b
    · rw [hp] at h
      simp at h
      exact ⟨r, by rw [hp, h]⟩
    · rw [hp] at h
      rcases b with _ | _
      · simp only [] at h
        exact ih e h
      · simp only [] at h
        rcases ht : filterRowsE p rs with e2 | l
        · rw [ht] at h
          simp [Except.map] at h
          exact ih e (by rw [ht, h])
        · rw [ht] at h
          simp [Except.map] at h

theorem transformE_ok {ε : Type} (m : Row → String) :
    ∀ df : DataFrame, transformE (fun r => (Except.ok (m r) : Except ε String)) df =
      Except.ok (df.map (fun r => r ++ [("meta", m r)])) := by
  intro df
  induction df with
  | nil => simp [transformE]
  | cons r rs ih => simp [transformE, ih, Except.map]

theorem filterRowsE_ok {ε : Type} (p : Row → Bool) :
    ∀ df : DataFrame, filterRowsE (fun r => (Except.ok (p r) : Except ε Bool)) df =
      Except.ok (df.filter p) := by
  intro df
  induction df with
  | nil => simp [filterRowsE]
  | cons r rs ih =>
    rw [filterRowsE]
    rcases hp : p r with _ | _ <;> simp [hp, ih, Except.map, List.filter_cons]

/-! ### The claims -/

/-- C1 (counterexample): the sequence of pipeline operations the notebook
actually executes is not the claimed one: a declarative count query (line 84)
runs between the first persist and the reload, and the table is reloaded a
second time (line 153) between the queries and the filter. -/
theorem c1_counterexample :
    matchesClaimedSeq (pipelineOps (runNotebook extDemo "p" "t" [] [])) = false := by
  decide

/-- C1 (amended): the notebook executes, in order: two configuration reads,
file listing, cataloging, persist, a declarative count query, reload,
metadata extraction, persist, three declarative queries, a second reload,
filter, plot. -/
theorem c1_pipeline (ext : ExtLib) (p t : String) (c0 : SparkConf) (s0 : TableStore) :
    pipelineOps (runNotebook ext p t c0 s0) =
      [ClaimOp.readConfig, ClaimOp.readConfig, ClaimOp.listFiles, ClaimOp.catalogOp,
       ClaimOp.persist, ClaimOp.query, ClaimOp.reload, ClaimOp.extract, ClaimOp.persist,
       ClaimOp.query, ClaimOp.query, ClaimOp.query, ClaimOp.reload, ClaimOp.filterOp,
       ClaimOp.plot] := rfl

/-- C2: the notebook defines exactly two free-text widgets, `path` and
`table`, and its only parameter reads are of those two widgets. -/
theorem c2_parameter_intake (ext : ExtLib) (p t : String)
    (c0 : SparkConf) (s0 : TableStore) :
    widgetDefs (runNotebook ext p t c0 s0).trace = ["path", "table"] ∧
    widgetReads (runNotebook ext p t c0 s0).trace = ["path", "table"] :=
  ⟨rfl, rfl⟩

/-- C5: the notebook has no branching of its own: for a fixed pair of widget
values and a fixed external behaviour, any two runs — whatever configuration
and table contents they start from — issue the same calls with the same
arguments in the same order and produce the same results. -/
theorem c5_deterministic (ext : ExtLib) (p t : String)
    (c0 c0' : SparkConf) (s0 s0' : TableStore) :
    observables (runNotebook ext p t c0 s0) t =
      observables (runNotebook ext p t c0' s0') t := by
  simp [observables, runNotebook, catalogSave, catalogLoad,
        sparkConfGet_set_self, storeGet_insert_self,
        storeInsert_insert_same, storeLookup_insert_self]

/-- C6: every substantive operation is a single call into an external
routine, and the only transformations this notebook applies between those
calls are a repartition, a filter expression and a limit: the catalog
dataframe is the external catalog call's result, the reloaded dataframe is
that same dataframe, the metadata dataframe is the external transformer
applied to the repartitioned reload, the filtered dataframe is the filter of
the metadata, the plot input is its first 100 rows, and the plots are the
external plotting call on that input; the file listing call is issued on the
raw path. -/
theorem c6_delegation (ext : ExtLib) (p t : String) (c0 : SparkConf) (s0 : TableStore) :
    (runNotebook ext p t c0 s0).catalogDf = ext.catalog p ∧
    (runNotebook ext p t c0 s0).reloadedDf = (runNotebook ext p t c0 s0).catalogDf ∧
    (runNotebook ext p t c0 s0).metaDf =
      dicomMetaTransform ext (repartitionDf 10000 (runNotebook ext p t c0 s0).reloadedDf) ∧
    (runNotebook ext p t c0 s0).filteredDf =
      repartitionDf 1000
        (List.filter (ext.evalPred filterCond) (runNotebook ext p t c0 s0).metaDf) ∧
    (runNotebook ext p t c0 s0).plotInput =
      limitDf 100 (runNotebook ext p t c0 s0).filteredDf ∧
    (runNotebook ext p t c0 s0).plots =
      ext.plotx ((runNotebook ext p t c0 s0).plotInput) true "local_path" ∧
    Call.fsLsCall p ∈ (runNotebook ext p t c0 s0).trace := by
  refine ⟨rfl, ?_, ?_, ?_, rfl, rfl, ?_⟩
  · simp [runNotebook, catalogSave, catalogLoad, storeGet_insert_self]
  · simp [runNotebook, catalogSave, catalogLoad, storeGet_insert_self]
  · simp [runNotebook, catalogSave, catalogLoad, storeGet_insert_self,
          storeInsert_insert_same]
  · simp [runNotebook]

/-- C7: the nine calls of the run that address a persisted table (two saves,
two loads, one table read, four SQL statements) all address exactly the
table named by the `table` widget; the SQL statements pick it up through the
`c.table` configuration key, which is set once from the widget. -/
theorem c7_single_table (ext : ExtLib) (p t : String) (c0 : SparkConf) (s0 : TableStore) :
    (runNotebook ext p t c0 s0).trace.filterMap tableAddressed = List.replicate 9 t := by
  simp [runNotebook, tableAddressed, sparkConfGet_set_self, List.replicate]

/-- C8: both saves overwrite the same table, so the final store is exactly
the initial store with the destination table holding the metadata dataframe
alone — the same state `save(meta)` alone would have produced — and the
final contents of the destination table do not depend on the initial
store. -/
theorem c8_overwrite (ext : ExtLib) (p t : String)
    (c0 : SparkConf) (s0 s0' : TableStore) :
    (runNotebook ext p t c0 s0).finalStore =
      storeInsert s0 t (runNotebook ext p t c0 s0).metaDf ∧
    storeLookup (runNotebook ext p t c0 s0).finalStore t =
      some ((runNotebook ext p t c0 s0).metaDf) ∧
    storeLookup (runNotebook ext p t c0 s0).finalStore t =
      storeLookup (runNotebook ext p t c0 s0').finalStore t := by
  refine ⟨?_, ?_, ?_⟩ <;>
    simp [runNotebook, catalogSave, catalogLoad, storeGet_insert_self,
          storeInsert_insert_same, storeLookup_insert_self]

/-- C9: the filtered dataframe consists of exactly the rows of the reloaded
metadata table that satisfy the condition `meta:img_max < 1000`, and the
subsequent count is the number of those rows. -/
theorem c9_filter (ext : ExtLib) (p t : String) (c0 : SparkConf) (s0 : TableStore) :
    (runNotebook ext p t c0 s0).filteredDf =
      List.filter (ext.evalPred "meta:img_max < 1000")
        ((runNotebook ext p t c0 s0).metaDf) ∧
    (∀ row : Row, row ∈ (runNotebook ext p t c0 s0).filteredDf ↔
      row ∈ (runNotebook ext p t c0 s0).metaDf ∧
        ext.evalPred "meta:img_max < 1000" row = true) ∧
    (runNotebook ext p t c0 s0).filteredCount =
      (runNotebook ext p t c0 s0).filteredDf.length := by
  refine ⟨?_, fun row => ?_, rfl⟩
  · simp [runNotebook, filterCond, repartitionDf, catalogSave, catalogLoad,
          storeGet_insert_self]
  · rw [show (runNotebook ext p t c0 s0).filteredDf =
        List.filter (ext.evalPred "meta:img_max < 1000")
          ((runNotebook ext p t c0 s0).metaDf) by
      simp [runNotebook, filterCond, repartitionDf, catalogSave, catalogLoad,
            storeGet_insert_self]]
    exact List.mem_filter

/-- C10: the dataframe handed to the external plotting routine is the first
100 rows of the filtered dataframe (so never more than 100 rows), the plots
are the external plotting call on it with `withMeta=True` and
`inputCol="local_path"`, and the corresponding call appears in the trace. -/
theorem c10_plot_limit (ext : ExtLib) (p t : String) (c0 : SparkConf) (s0 : TableStore) :
    (runNotebook ext p t c0 s0).plotInput =
      List.take 100 (runNotebook ext p t c0 s0).filteredDf ∧
    (runNotebook ext p t c0 s0).plotInput.length ≤ 100 ∧
    (runNotebook ext p t c0 s0).plots =
      ext.plotx ((runNotebook ext p t c0 s0).plotInput) true "local_path" ∧
    Call.plotxCall true "local_path" ∈ (runNotebook ext p t c0 s0).trace := by
  refine ⟨rfl, ?_, rfl, ?_⟩
  · exact List.length_take_le 100 ((runNotebook ext p t c0 s0).filteredDf)
  · simp [runNotebook]

/-- C4: the transformer's output has the same number of rows as its input,
and its `i`-th row is the `i`-th input row with the single column `meta`
(holding the serialized JSON text blob) appended — no rows or existing
columns are dropped or rewritten; in the run, the metadata dataframe is the
transformer applied to the reloaded catalog dataframe. -/
theorem c4_transform_augments (ext : ExtLib) (df : DataFrame) (p t : String)
    (c0 : SparkConf) (s0 : TableStore) :
    (dicomMetaTransform ext df).length = df.length ∧
    (∀ i : Nat, (dicomMetaTransform ext df)[i]? =
      (df[i]?).map (fun r => r ++ [("meta", ext.metaBlob r)])) ∧
    (runNotebook ext p t c0 s0).metaDf =
      dicomMetaTransform ext ((runNotebook ext p t c0 s0).reloadedDf) := by
  refine ⟨by simp [dicomMetaTransform], fun i => ?_, ?_⟩
  · simp [dicomMetaTransform]
  · simp [runNotebook, repartitionDf, catalogSave, catalogLoad, storeGet_insert_self]

/-- C3: the notebook validates neither parameter and authors no exception
handling.  Concretely: (1) under externals that never raise, the run
succeeds for every pair of parameter strings, with the result of the total
model — path and table reach the external calls verbatim, unvalidated, as
the trace memberships show; (2) whenever a run surfaces an exception, that
exception is exactly one raised by an external library call — the notebook
performs no recovery, retry, or translation. -/
theorem c3_no_error_handling {ε : Type} (ext : ExtLib) (extE : ExtLibE ε)
    (p t : String) (c0 : SparkConf) (s0 : TableStore) (e : ε) :
    runNotebookE (liftE ext : ExtLibE ε) p t c0 s0 =
      Except.ok (runNotebook ext p t c0 s0) ∧
    (runNotebookE extE p t c0 s0 = Except.error e → raisedByExtLib extE e) ∧
    Call.fsLsCall p ∈ (runNotebook ext p t c0 s0).trace ∧
    Call.catalogCall p ∈ (runNotebook ext p t c0 s0).trace ∧
    Call.saveCall t "overwrite" ∈ (runNotebook ext p t c0 s0).trace := by
  refine ⟨?_, ?_, ?_, ?_, ?_⟩
  · simp [runNotebookE, runNotebook, liftE, transformE_ok, filterRowsE_ok,
          dicomMetaTransform, repartitionDf]
  · intro h
    simp only [runNotebookE] at h
    split at h
    · rename_i e1 heq
      injection h with h'
      subst h'
      exact Or.inl ⟨p, heq⟩
    · split at h
      · rename_i e2 heq
        injection h with h'
        subst h'
        exact Or.inr (Or.inl ⟨p, heq⟩)
      · split at h
        · rename_i e3 heq
          injection h with h'
          subst h'
          exact Or.inr (Or.inr (Or.inl ⟨_, _, heq⟩))
        · split at h
          · rename_i e4 heq
            injection h with h'
            subst h'
            rcases transformE_error _ _ _ heq with ⟨r, hr⟩
            exact Or.inr (Or.inr (Or.inr (Or.inl ⟨r, hr⟩)))
          · split at h
            · rename_i e5 heq
              injection h with h'
              subst h'
              exact Or.inr (Or.inr (Or.inl ⟨_, _, heq⟩))
            · split at h
              · rename_i e6 heq
                injection h with h'
                subst h'
                exact Or.inr (Or.inr (Or.inr (Or.inr (Or.inl ⟨3, _, heq⟩))))
              · split at h
                · rename_i e7 heq
                  injection h with h'
                  subst h'
                  exact Or.inr (Or.inr (Or.inr (Or.inr (Or.inl ⟨4, _, heq⟩))))
                · split at h
                  · rename_i e8 heq
                    injection h with h'
                    subst h'
                    rcases filterRowsE_error _ _ _ heq with ⟨r, hr⟩
                    exact Or.inr (Or.inr (Or.inr (Or.inr (Or.inr
                      (Or.inl ⟨filterCond, r, hr⟩)))))
                  · split at h
                    · rename_i e9 heq
                      injection h with h'
                      subst h'
                      exact Or.inr (Or.inr (Or.inr (Or.inr (Or.inr
                        (Or.inr ⟨_, true, "local_path", heq⟩)))))
                    · exact Except.noConfusion h
  · simp [runNotebook]
  · simp [runNotebook]
  · simp [runNotebook]

/-- C3 (witness): under a concrete behaviour whose catalog call raises
`"boom"`, the run surfaces exactly `"boom"`, an exception raised by an
external call. -/
theorem c3_witness : raisedByExtLib extBoom "boom" :=
  (c3_no_error_handling extDemo extBoom "p" "t" [] [] "boom").2.1 rfl

end Pixels
